import Mathlib

/-!
Shallow embedding of the request-construction and response-normalization
pipeline of `src/lib/imageProcessing.ts`: the OCR extraction client
(`extractTextFromImage`), the transliteration client (`transliterateText`)
with its inline option encoder, the translation client (`translateText`)
with its Grantha script-bridging pre-step, and the file-download helper
(`downloadTextAsFile`).

Modelling conventions:
* The HTTP transport is a parameter (`FetchOutcome`): either the promise
  rejects / something throws (`throw`, carrying whether the thrown value is
  an `Error` instance and its message), or a response arrives with a
  status, a status text, and an already-read body.  `response.ok` is
  `200 ≤ status ≤ 299` (`statusOk`).
* Each client returns its result value paired with the list of network
  calls it issued (`NetCall`), in order, so that absence of calls is
  provable.
* A JS options object is an association list `List (String × Bool)`;
  property access is `getFlag` (first binding wins; a JS object has
  distinct keys, so key order is irrelevant under a `Nodup` hypothesis).
  Absent keys read as falsy (`false`).
* JS `String.prototype.trim` is modelled by `jsTrim` (drop whitespace from
  both ends), and `encodeURIComponent` by percent-encoding the UTF-8 bytes
  of every character outside the JS unreserved set.
-/

/-- JS `String.prototype.trim`: drop leading and trailing whitespace. -/
def jsTrim (s : String) : String :=
  ⟨(((s.data.dropWhile Char.isWhitespace).reverse.dropWhile Char.isWhitespace).reverse)⟩

/-- A thrown JS value as seen by a `catch` clause: whether it is an
`Error` instance, and its `message`. -/
structure JsError where
  isError : Bool
  message : String
deriving DecidableEq

/-- Outcome of one `fetch` of a response whose body has been read into `β`:
either a rejection/throw, or a settled response with status, status text
and body. -/
inductive FetchOutcome (β : Type) where
  | throw (e : JsError)
  | respond (status : Nat) (statusText : String) (body : β)
deriving DecidableEq

/-- `response.ok`: status in the inclusive range 200–299. -/
def statusOk (status : Nat) : Bool := 200 ≤ status && status ≤ 299

/-- One network call issued by the pipeline, with the request data the
claims talk about. -/
inductive NetCall where
  | translitGet (url : String)
  | translatePost (q : String) (source : String) (target : String) (format : String)
  | extractPost (field : String)
deriving DecidableEq

/-- Is this call the translation POST? -/
def NetCall.isTranslatePost : NetCall → Bool
  | .translatePost _ _ _ _ => true
  | _ => false

/-- A JS options object: ordered key/value bindings with distinct keys. -/
abbrev OptionsObj := List (String × Bool)

/-- JS property read `options.name` as a truthiness test: the first binding
of `name` if any, else `false` (absent/`undefined` is falsy). -/
def getFlag (o : OptionsObj) (name : String) : Bool :=
  (o.lookup name).getD false

/-- The 13 recognized transliteration option flags, in the order the
source checks them when building the request URL. -/
def flagNames : List String :=
  ["disableUu", "subscriptNumerals", "markFirstVarga", "removeApostrophe",
   "removeDiacriticNumerals", "oldOrthography", "granthaVisarga", "disableIlm",
   "contextualNna", "onlyWordFinalNna", "nativeNumerals", "useDandas",
   "preserveSource"]

/-- The option encoder inlined in `transliterateText`: thirteen sequential
`if (options.x) apiUrl += "&x=true";` appends. -/
def encodeOptions (o : OptionsObj) : String :=
  let s := ""
  let s := if getFlag o "disableUu" then s ++ "&disableUu=true" else s
  let s := if getFlag o "subscriptNumerals" then s ++ "&subscriptNumerals=true" else s
  let s := if getFlag o "markFirstVarga" then s ++ "&markFirstVarga=true" else s
  let s := if getFlag o "removeApostrophe" then s ++ "&removeApostrophe=true" else s
  let s := if getFlag o "removeDiacriticNumerals" then s ++ "&removeDiacriticNumerals=true" else s
  let s := if getFlag o "oldOrthography" then s ++ "&oldOrthography=true" else s
  let s := if getFlag o "granthaVisarga" then s ++ "&granthaVisarga=true" else s
  let s := if getFlag o "disableIlm" then s ++ "&disableIlm=true" else s
  let s := if getFlag o "contextualNna" then s ++ "&contextualNna=true" else s
  let s := if getFlag o "onlyWordFinalNna" then s ++ "&onlyWordFinalNna=true" else s
  let s := if getFlag o "nativeNumerals" then s ++ "&nativeNumerals=true" else s
  let s := if getFlag o "useDandas" then s ++ "&useDandas=true" else s
  let s := if getFlag o "preserveSource" then s ++ "&preserveSource=true" else s
  s

/-- UTF-8 bytes of a character, as numbers below 256. -/
def utf8Bytes (c : Char) : List Nat :=
  let n := c.toNat
  if n < 0x80 then [n]
  else if n < 0x800 then [0xC0 + n / 64, 0x80 + n % 64]
  else if n < 0x10000 then [0xE0 + n / 4096, 0x80 + (n / 64) % 64, 0x80 + n % 64]
  else [0xF0 + n / 262144, 0x80 + (n / 4096) % 64, 0x80 + (n / 64) % 64, 0x80 + n % 64]

/-- Upper-case hexadecimal digit. -/
def hexDigit (n : Nat) : Char :=
  if n < 10 then Char.ofNat (48 + n) else Char.ofNat (55 + n)

/-- `%XX` percent-escape of one byte. -/
def percentByte (b : Nat) : List Char :=
  ['%', hexDigit (b / 16), hexDigit (b % 16)]

/-- Characters `encodeURIComponent` leaves unescaped. -/
def uriUnreserved (c : Char) : Bool :=
  c.isAlpha || c.isDigit ||
    (c = '-' || c = '_' || c = '.' || c = '!' || c = '~' || c = '*' ||
     c = '\'' || c = '(' || c = ')')

/-- JS `encodeURIComponent`: percent-encode the UTF-8 bytes of every
character outside the unreserved set. -/
def encodeURIComponent (s : String) : String :=
  ⟨s.data.flatMap fun c =>
    if uriUnreserved c then [c] else (utf8Bytes c).flatMap percentByte⟩

structure TransliterationParams where
  text : String
  sourceScript : String
  targetScript : String
  options : OptionsObj
deriving DecidableEq

structure TransliterationResult where
  transliteratedText : String
  error : Option String
deriving DecidableEq

/-- The GET URL `transliterateText` builds: base query plus the option
suffix. -/
def translitUrl (p : TransliterationParams) : String :=
  "https://aksharamukha-plugin.appspot.com/api/public?source=" ++ p.sourceScript ++
    "&target=" ++ p.targetScript ++ "&text=" ++ encodeURIComponent p.text ++
    encodeOptions p.options

/-- Message returned by `transliterateText`'s catch clause. -/
def translitCatchMsg : String := "An error occurred during transliteration. Please try again."

/-- The `try` block of `transliterateText`: fetch the URL; on a non-ok
status throw `HTTP error! status: ...`; on success wrap the plain-text
body. Returns the outcome together with the calls issued. -/
def transliterateTry (p : TransliterationParams) (t : FetchOutcome String) :
    Except JsError TransliterationResult × List NetCall :=
  let apiUrl := translitUrl p
  match t with
  | .throw e => (.error e, [.translitGet apiUrl])
  | .respond status _ body =>
      if statusOk status then (.ok ⟨body, none⟩, [.translitGet apiUrl])
      else (.error ⟨true, "HTTP error! status: " ++ toString status⟩, [.translitGet apiUrl])

/-- `transliterateText` of `imageProcessing.ts`: empty-trimmed text fails
before any call; otherwise the try block runs and its catch clause maps
any thrown value to the generic transliteration message. -/
def transliterateText (p : TransliterationParams) (t : FetchOutcome String) :
    TransliterationResult × List NetCall :=
  if jsTrim p.text = "" then
    (⟨"", some "Please enter some text to transliterate"⟩, [])
  else
    match transliterateTry p t with
    | (.ok r, calls) => (r, calls)
    | (.error _, calls) => (⟨"", some translitCatchMsg⟩, calls)

structure TranslationParams where
  text : String
  sourceLanguage : String
  targetLanguage : String
  sourceScript : Option String
deriving DecidableEq

/-- Parsed JSON body of the translation service's response; the
`translatedText` field may be absent. -/
structure TranslateBody where
  translatedText : Option String
deriving DecidableEq

/-- Result of `translateText`; `translatedText` is `none` when the code
returns JS `undefined` there. -/
structure TranslationResult where
  translatedText : Option String
  error : Option String
deriving DecidableEq

/-- Message returned by `translateText`'s catch clause. -/
def translateCatchMsg : String := "An error occurred during translation. Please try again."

/-- The intermediate script for Grantha bridging: `Tamil`, overridden to
`Devanagari` when the source language is `hi` or `sa`. -/
def intermediateScriptFor (sourceLanguage : String) : String :=
  if sourceLanguage = "hi" || sourceLanguage = "sa" then "Devanagari" else "Tamil"

/-- The translation POST: fetch `https://libretranslate.de/translate` with
JSON `{q, source, target, format: "text"}`; non-ok status throws; success
extracts `result.translatedText`. -/
def translatePostStep (textToTranslate : String) (p : TranslationParams)
    (trT : FetchOutcome TranslateBody) :
    Except JsError TranslationResult × List NetCall :=
  let call := NetCall.translatePost textToTranslate p.sourceLanguage p.targetLanguage "text"
  match trT with
  | .throw e => (.error e, [call])
  | .respond status _ body =>
      if statusOk status then (.ok ⟨body.translatedText, none⟩, [call])
      else (.error ⟨true, "HTTP error! status: " ++ toString status⟩, [call])

/-- The `try` block of `translateText`: when `sourceScript === "Grantha"`,
first transliterate to the intermediate script (no options passed); a
failure there returns `{translatedText: "", error}` directly, otherwise
the transliterated text becomes the POST's `q`. -/
def translateTry (p : TranslationParams) (tT : FetchOutcome String)
    (trT : FetchOutcome TranslateBody) :
    Except JsError TranslationResult × List NetCall :=
  if p.sourceScript = some "Grantha" then
    let inter := intermediateScriptFor p.sourceLanguage
    let sub := transliterateText ⟨p.text, "Grantha", inter, []⟩ tT
    match sub.1.error with
    | some e => (.ok ⟨some "", some e⟩, sub.2)
    | none =>
        let post := translatePostStep sub.1.transliteratedText p trT
        (post.1, sub.2 ++ post.2)
  else
    translatePostStep p.text p trT

/-- `translateText` of `imageProcessing.ts`: empty-trimmed text fails
before any call; otherwise the try block runs and its catch clause maps
any thrown value to the generic translation message. -/
def translateText (p : TranslationParams) (tT : FetchOutcome String)
    (trT : FetchOutcome TranslateBody) :
    TranslationResult × List NetCall :=
  if jsTrim p.text = "" then
    (⟨some "", some "Please enter some text to translate"⟩, [])
  else
    match translateTry p tT trT with
    | (.ok r, calls) => (r, calls)
    | (.error _, calls) => (⟨some "", some translateCatchMsg⟩, calls)

/-- Parsed JSON body of the OCR service's response; the `grantha_text`
field may be absent. -/
structure ExtractBody where
  grantha_text : Option String
deriving DecidableEq

structure ExtractResult where
  text : String
  error : Option String
deriving DecidableEq

/-- Fallback message of `extractTextFromImage`'s catch clause, used only
when the thrown value is not an `Error` instance. -/
def extractFallbackMsg : String := "Failed to extract text. Please try another image."

/-- The `try` block of `extractTextFromImage`: a missing file throws
`No file provided` before any call; otherwise POST the multipart form
with the image under field `image`; non-ok status throws
`API error: <status> <statusText>`; success reads `result.grantha_text`
with `""` for an absent field. -/
def extractTry (file : Option Unit) (t : FetchOutcome ExtractBody) :
    Except JsError ExtractResult × List NetCall :=
  match file with
  | none => (.error ⟨true, "No file provided"⟩, [])
  | some _ =>
      let call := NetCall.extractPost "image"
      match t with
      | .throw e => (.error e, [call])
      | .respond status statusText body =>
          if statusOk status then (.ok ⟨body.grantha_text.getD "", none⟩, [call])
          else (.error ⟨true, "API error: " ++ toString status ++ " " ++ statusText⟩, [call])

/-- `extractTextFromImage` of `imageProcessing.ts`: the catch clause keeps
the thrown value's own message when it is an `Error` instance and falls
back to the generic extraction message otherwise. -/
def extractTextFromImage (file : Option Unit) (t : FetchOutcome ExtractBody) :
    ExtractResult × List NetCall :=
  match extractTry file t with
  | (.ok r, calls) => (r, calls)
  | (.error e, calls) =>
      (⟨"", some (if e.isError then e.message else extractFallbackMsg)⟩, calls)

/-- Observable side effects of `downloadTextAsFile`. -/
inductive DownloadEffect where
  | consoleError (msg : String)
  | createBlob (content : String) (mimeType : String)
  | createObjectURL
  | clickDownloadLink (filename : String)
  | revokeObjectURL
deriving DecidableEq

/-- Is this effect a file-creation/download effect (blob creation, object
URL, or triggering the download link)? -/
def DownloadEffect.isFileEffect : DownloadEffect → Bool
  | .consoleError _ => false
  | _ => true

/-- `downloadTextAsFile` of `imageProcessing.ts`: falsy (empty) text only
logs and returns; otherwise a blob is created and a download of
`filename` is triggered. -/
def downloadTextAsFile (text : String) (filename : String) : List DownloadEffect :=
  if text = "" then
    [.consoleError "No text to download"]
  else
    [.createBlob text "text/plain", .createObjectURL, .clickDownloadLink filename,
     .revokeObjectURL]

/-! ### Helper lemmas -/

theorem string_append_empty (s : String) : s ++ "" = s :=
  String.ext (by rw [String.data_append]; exact List.append_nil _)

theorem string_append_assoc (s t u : String) : s ++ t ++ u = s ++ (t ++ u) :=
  String.ext (by simp [String.data_append, List.append_assoc])

theorem string_join_cons (a : String) (l : List String) :
    String.join (a :: l) = a ++ String.join l :=
  String.ext (by simp [String.data_join, String.data_append])

theorem foldl_flag_append_eq_join (o : OptionsObj) (ns : List String) (init : String) :
    ns.foldl (fun acc n => if getFlag o n then acc ++ ("&" ++ n ++ "=true") else acc) init
      = init ++
        String.join (((ns.filter fun n => getFlag o n).map fun n => "&" ++ n ++ "=true")) := by
  induction ns generalizing init with
  | nil =>
      simp only [List.foldl_nil, List.filter_nil, List.map_nil]
      rw [show String.join ([] : List String) = "" from rfl, string_append_empty]
  | cons a tl ih =>
      rcases h : getFlag o a
      · simp only [List.foldl_cons, List.filter_cons, h, Bool.false_eq_true, if_false]
        exact ih init
      · simp only [List.foldl_cons, List.filter_cons, h, if_true, List.map_cons,
          string_join_cons]
        rw [ih]
        exact string_append_assoc _ _ _

theorem encodeOptions_eq_foldl (o : OptionsObj) :
    encodeOptions o =
      flagNames.foldl (fun acc n => if getFlag o n then acc ++ ("&" ++ n ++ "=true") else acc)
        "" := rfl

theorem lookup_eq_of_perm {l l' : OptionsObj} (p : l.Perm l') :
    (l.map Prod.fst).Nodup → ∀ k, l.lookup k = l'.lookup k := by
  induction p with
  | nil => intro _ k; rfl
  | cons x _ ih =>
      intro nd k
      obtain ⟨x1, x2⟩ := x
      simp only [List.map_cons] at nd
      rw [List.lookup_cons, List.lookup_cons]
      cases hk : k == x1 with
      | true => rfl
      | false => exact ih (List.nodup_cons.mp nd).2 k
  | swap x y l =>
      intro nd k
      obtain ⟨x1, x2⟩ := x
      obtain ⟨y1, y2⟩ := y
      simp only [List.map_cons] at nd
      obtain ⟨hy, -⟩ := List.nodup_cons.mp nd
      have hne : y1 ≠ x1 := fun h => hy (h ▸ List.mem_cons_self _ _)
      rw [List.lookup_cons, List.lookup_cons, List.lookup_cons, List.lookup_cons]
      cases hky : k == y1 with
      | true =>
          cases hkx : k == x1 with
          | true => exact absurd ((eq_of_beq hky).symm.trans (eq_of_beq hkx)) hne
          | false => simp [hky, hkx]
      | false => cases hkx : k == x1 with
          | true => simp [hky, hkx]
          | false => simp [hky, hkx]
  | trans p1 _ ih1 ih2 =>
      intro nd k
      have nd2 : _ := ((p1.map Prod.fst).nodup_iff).mp nd
      rw [ih1 nd k, ih2 nd2 k]

theorem getFlag_eq_of_perm {l l' : OptionsObj} (p : l.Perm l')
    (nd : (l.map Prod.fst).Nodup) (k : String) : getFlag l k = getFlag l' k := by
  unfold getFlag
  rw [lookup_eq_of_perm p nd k]

/-! ### Claims -/

/-- C4: the option-encoder suffix equals the concatenation, in the fixed
canonical order of `flagNames`, of one `&name=true` token per recognized
flag that reads true — hence no token for false/absent flags and none for
unrecognized keys; the suffix is `""` when no recognized flag is true; and
for options objects with distinct keys the encoding is invariant under
permutation of the key/value bindings (key order is irrelevant).  The
encoder is a plain function of the options value, so it is deterministic
and side-effect-free by construction. -/
theorem C4_option_encoder (o o' : OptionsObj) :
    encodeOptions o =
        String.join (((flagNames.filter fun n => getFlag o n).map fun n => "&" ++ n ++ "=true"))
      ∧ ((∀ n ∈ flagNames, getFlag o n = false) → encodeOptions o = "")
      ∧ (o.Perm o' → (o.map Prod.fst).Nodup → encodeOptions o = encodeOptions o') := by
  refine ⟨?_, ?_, ?_⟩
  · rw [encodeOptions_eq_foldl, foldl_flag_append_eq_join]
    exact String.ext (by simp [String.data_append])
  · intro h
    rw [encodeOptions_eq_foldl, foldl_flag_append_eq_join]
    have : flagNames.filter (fun n => getFlag o n) = [] := by
      apply List.filter_eq_nil_iff.mpr
      intro n hn
      simp [h n hn]
    rw [this]
    rfl
  · intro hperm nd
    rw [encodeOptions_eq_foldl, encodeOptions_eq_foldl]
    have : ∀ n, getFlag o n = getFlag o' n := getFlag_eq_of_perm hperm nd
    simp only [this]

/-- C4 witness: the three parts of `C4_option_encoder` applied at concrete
options objects (a mixed true/false/unrecognized bag, the empty bag, and a
permuted pair with distinct keys). -/
theorem C4_option_encoder_witness :
    encodeOptions [("useDandas", true), ("bogus", true), ("disableUu", false)] =
        String.join
          (((flagNames.filter fun n =>
              getFlag [("useDandas", true), ("bogus", true), ("disableUu", false)] n).map
            fun n => "&" ++ n ++ "=true"))
      ∧ encodeOptions [("bogus", true)] = ""
      ∧ encodeOptions [("useDandas", true), ("nativeNumerals", false), ("disableUu", true)] =
          encodeOptions [("disableUu", true), ("useDandas", true), ("nativeNumerals", false)] :=
  ⟨(C4_option_encoder [("useDandas", true), ("bogus", true), ("disableUu", false)] []).1,
   (C4_option_encoder [("bogus", true)] []).2.1 (by decide),
   (C4_option_encoder [("useDandas", true), ("nativeNumerals", false), ("disableUu", true)]
      [("disableUu", true), ("useDandas", true), ("nativeNumerals", false)]).2.2
     (by decide) (by decide)⟩

/-- C6: on input whose trimmed form is empty, `transliterateText` returns
the failure `Please enter some text to transliterate` and `translateText`
returns the failure `Please enter some text to translate`, and both issue
zero network calls (empty call trace), for every transport behaviour. -/
theorem C6_empty_text_no_network (p : TransliterationParams) (q : TranslationParams)
    (t tT : FetchOutcome String) (trT : FetchOutcome TranslateBody)
    (hp : jsTrim p.text = "") (hq : jsTrim q.text = "") :
    transliterateText p t = (⟨"", some "Please enter some text to transliterate"⟩, [])
      ∧ translateText q tT trT = (⟨some "", some "Please enter some text to translate"⟩, []) := by
  constructor
  · simp [transliterateText, hp]
  · simp [translateText, hq]

/-- C6 witness: `C6_empty_text_no_network` at whitespace-only input and a
concrete transport. -/
theorem C6_empty_text_no_network_witness :
    jsTrim "  " = ""
      ∧ transliterateText ⟨"  ", "Grantha", "Tamil", []⟩ (.respond 200 "OK" "x")
          = (⟨"", some "Please enter some text to transliterate"⟩, [])
      ∧ translateText ⟨"  ", "en", "ta", none⟩ (.throw ⟨true, "x"⟩)
            (.respond 200 "OK" ⟨some "y"⟩)
          = (⟨some "", some "Please enter some text to translate"⟩, []) :=
  ⟨by decide,
   (C6_empty_text_no_network ⟨"  ", "Grantha", "Tamil", []⟩ ⟨"  ", "en", "ta", none⟩
      (.respond 200 "OK" "x") (.throw ⟨true, "x"⟩) (.respond 200 "OK" ⟨some "y"⟩)
      (by decide) (by decide)).1,
   (C6_empty_text_no_network ⟨"  ", "Grantha", "Tamil", []⟩ ⟨"  ", "en", "ta", none⟩
      (.respond 200 "OK" "x") (.throw ⟨true, "x"⟩) (.respond 200 "OK" ⟨some "y"⟩)
      (by decide) (by decide)).2⟩

/-- C7: when the transport returns a 2xx response, `transliterateText`
succeeds with exactly the response body as the transliterated text — no
trimming, no re-encoding, no other transformation. -/
theorem C7_translit_success_verbatim (p : TransliterationParams) (status : Nat)
    (statusText body : String) (h : ¬ jsTrim p.text = "") (hok : statusOk status = true) :
    transliterateText p (.respond status statusText body)
      = (⟨body, none⟩, [.translitGet (translitUrl p)]) := by
  simp [transliterateText, transliterateTry, h, hok]

/-- C7 witness: `C7_translit_success_verbatim` at a concrete call, with a
body that a trimming or re-encoding normalization would have altered. -/
theorem C7_translit_success_verbatim_witness :
    ¬ jsTrim "rAma" = "" ∧ statusOk 200 = true
      ∧ transliterateText ⟨"rAma", "HK", "Grantha", []⟩ (.respond 200 "OK" "  𑌰𑌾𑌮 ")
          = (⟨"  𑌰𑌾𑌮 ", none⟩, [.translitGet (translitUrl ⟨"rAma", "HK", "Grantha", []⟩)]) :=
  ⟨by decide, by decide,
   C7_translit_success_verbatim ⟨"rAma", "HK", "Grantha", []⟩ 200 "OK" "  𑌰𑌾𑌮 "
     (by decide) (by decide)⟩

/-- C1 counterexample: on a 500 response, `transliterateText` and
`translateText` return the same generic per-operation message that a
transport-level failure produces — the message does not embed the status
code (the `HTTP error! status: 500` thrown inside the `try` block is
swallowed by the function's own `catch`), so the two error classes are
not distinguishable in the returned message, refuting the claim. -/
theorem C1_counterexample :
    (transliterateText ⟨"hi", "Grantha", "Tamil", []⟩
        (.respond 500 "Internal Server Error" "")).1.error = some translitCatchMsg
      ∧ (transliterateText ⟨"hi", "Grantha", "Tamil", []⟩
          (.throw ⟨true, "network error"⟩)).1.error = some translitCatchMsg
      ∧ (translateText ⟨"hi", "fr", "en", none⟩ (.throw ⟨true, "x"⟩)
          (.respond 500 "Internal Server Error" ⟨none⟩)).1.error = some translateCatchMsg
      ∧ (translateText ⟨"hi", "fr", "en", none⟩ (.throw ⟨true, "x"⟩)
          (.throw ⟨true, "network error"⟩)).1.error = some translateCatchMsg := by
  decide

/-- C1 amended: for `transliterateText` and `translateText`, a non-2xx
HTTP status and a transport-level failure both return the same generic
per-operation Failure message (`An error occurred during transliteration.
Please try again.` / `An error occurred during translation. Please try
again.`); the status code is not embedded and the two error classes are
not distinguishable.  For `translateText` the statement is about the
translation POST's transport, so when the source script is Grantha the
transliteration pre-step is assumed to succeed. -/
theorem C1_amended_generic_failure (p : TransliterationParams) (q : TranslationParams)
    (e : JsError) (status : Nat) (statusText body : String) (tbody : TranslateBody)
    (tT : FetchOutcome String)
    (hp : ¬ jsTrim p.text = "") (hq : ¬ jsTrim q.text = "") (hs : statusOk status = false)
    (hsub : q.sourceScript = some "Grantha" →
      (transliterateText ⟨q.text, "Grantha", intermediateScriptFor q.sourceLanguage, []⟩
          tT).1.error = none) :
    (transliterateText p (.throw e)).1.error = some translitCatchMsg
      ∧ (transliterateText p (.respond status statusText body)).1.error = some translitCatchMsg
      ∧ (translateText q tT (.throw e)).1.error = some translateCatchMsg
      ∧ (translateText q tT (.respond status statusText tbody)).1.error
          = some translateCatchMsg := by
  refine ⟨by simp [transliterateText, transliterateTry, hp],
          by simp [transliterateText, transliterateTry, hp, hs], ?_, ?_⟩
  · by_cases hg : q.sourceScript = some "Grantha"
    · have h0 := hsub hg
      simp only [translateText, translateTry, hq, if_neg, hg, if_true, if_pos]
      rcases h1 : (transliterateText
          ⟨q.text, "Grantha", intermediateScriptFor q.sourceLanguage, []⟩ tT) with ⟨r, calls⟩
      rcases r with ⟨tt, err⟩
      rw [h1] at h0
      simp only at h0
      subst h0
      simp [translatePostStep]
    · simp [translateText, translateTry, hq, hg, translatePostStep]
  · by_cases hg : q.sourceScript = some "Grantha"
    · have h0 := hsub hg
      simp only [translateText, translateTry, hq, if_neg, hg, if_true, if_pos]
      rcases h1 : (transliterateText
          ⟨q.text, "Grantha", intermediateScriptFor q.sourceLanguage, []⟩ tT) with ⟨r, calls⟩
      rcases r with ⟨tt, err⟩
      rw [h1] at h0
      simp only at h0
      subst h0
      simp [translatePostStep, hs]
    · simp [translateText, translateTry, hq, hg, translatePostStep, hs]

/-- C1 amended witness: `C1_amended_generic_failure` at concrete inputs
(non-Grantha source script, status 500, a thrown network error). -/
theorem C1_amended_generic_failure_witness :
    (transliterateText ⟨"hi", "HK", "Tamil", []⟩ (.throw ⟨true, "timeout"⟩)).1.error
        = some translitCatchMsg
      ∧ (transliterateText ⟨"hi", "HK", "Tamil", []⟩ (.respond 500 "ISE" "")).1.error
          = some translitCatchMsg
      ∧ (translateText ⟨"hi", "fr", "en", none⟩ (.respond 200 "OK" "x")
          (.throw ⟨true, "timeout"⟩)).1.error = some translateCatchMsg
      ∧ (translateText ⟨"hi", "fr", "en", none⟩ (.respond 200 "OK" "x")
          (.respond 500 "ISE" ⟨none⟩)).1.error = some translateCatchMsg :=
  C1_amended_generic_failure ⟨"hi", "HK", "Tamil", []⟩ ⟨"hi", "fr", "en", none⟩
    ⟨true, "timeout"⟩ 500 "ISE" "" ⟨none⟩ (.respond 200 "OK" "x")
    (by decide) (by decide) (by decide) (by decide)

/-- Every call `transliterateText` issues is its own GET — never the
translation POST. -/
theorem translit_calls_no_post (p : TransliterationParams) (t : FetchOutcome String) :
    ∀ c ∈ (transliterateText p t).2, c.isTranslatePost = false := by
  unfold transliterateText transliterateTry
  by_cases hp : jsTrim p.text = "" <;>
    rcases t with e | ⟨st, sx, b⟩ <;>
      simp [hp, NetCall.isTranslatePost]
  all_goals
    by_cases hs : statusOk st = true <;> simp [hs, NetCall.isTranslatePost]

/-- C2: when the source script is `Grantha` and the text is non-empty
after trimming, `translateText` first issues the transliteration GET with
`sourceScript = "Grantha"`, `targetScript` the intermediate script
(`Devanagari` for source languages `hi` and `sa`, `Tamil` for every
other), and an empty options object (whose encoded suffix is empty), and
then issues the translation POST whose `q` is exactly the transliterated
text returned by that sub-call. -/
theorem C2_grantha_bridging (text sl tl : String) (status : Nat) (statusText body : String)
    (trT : FetchOutcome TranslateBody) (h : ¬ jsTrim text = "") (hok : statusOk status = true) :
    (translateText ⟨text, sl, tl, some "Grantha"⟩ (.respond status statusText body) trT).2
        = [NetCall.translitGet (translitUrl ⟨text, "Grantha", intermediateScriptFor sl, []⟩),
           NetCall.translatePost body sl tl "text"]
      ∧ intermediateScriptFor sl = (if sl = "hi" || sl = "sa" then "Devanagari" else "Tamil")
      ∧ encodeOptions [] = "" := by
  refine ⟨?_, rfl, rfl⟩
  rcases trT with e | ⟨st, sx, b⟩
  · simp [translateText, translateTry, transliterateText, transliterateTry,
      translatePostStep, h, hok]
  · by_cases hs : statusOk st = true <;>
      simp [translateText, translateTry, transliterateText, transliterateTry,
        translatePostStep, h, hok, hs]

/-- C2 witness: `C2_grantha_bridging` at a concrete Grantha translation
call with source language `hi` (so the intermediate script is
`Devanagari`). -/
theorem C2_grantha_bridging_witness :
    ¬ jsTrim "hi" = "" ∧ statusOk 200 = true
      ∧ (translateText ⟨"hi", "hi", "en", some "Grantha"⟩ (.respond 200 "OK" "नमस")
            (.respond 200 "OK" ⟨some "hello"⟩)).2
          = [NetCall.translitGet (translitUrl ⟨"hi", "Grantha", intermediateScriptFor "hi", []⟩),
             NetCall.translatePost "नमस" "hi" "en" "text"] :=
  ⟨by decide, by decide,
   (C2_grantha_bridging "hi" "hi" "en" 200 "OK" "नमस" (.respond 200 "OK" ⟨some "hello"⟩)
      (by decide) (by decide)).1⟩

/-- C3: when the source script is `Grantha` and the transliteration
sub-call fails, `translateText` returns a Failure carrying the identical
message (with `translatedText` set to the empty string), its call trace is
exactly the sub-call's trace, and no translation POST is ever issued. -/
theorem C3_sub_failure_short_circuits (text sl tl : String) (tT : FetchOutcome String)
    (trT : FetchOutcome TranslateBody) (m : String) (h : ¬ jsTrim text = "")
    (herr : (transliterateText ⟨text, "Grantha", intermediateScriptFor sl, []⟩ tT).1.error
        = some m) :
    (translateText ⟨text, sl, tl, some "Grantha"⟩ tT trT).1 = ⟨some "", some m⟩
      ∧ (translateText ⟨text, sl, tl, some "Grantha"⟩ tT trT).2
          = (transliterateText ⟨text, "Grantha", intermediateScriptFor sl, []⟩ tT).2
      ∧ ∀ c ∈ (translateText ⟨text, sl, tl, some "Grantha"⟩ tT trT).2,
          c.isTranslatePost = false := by
  have hpost := translit_calls_no_post ⟨text, "Grantha", intermediateScriptFor sl, []⟩ tT
  rcases h1 : (transliterateText ⟨text, "Grantha", intermediateScriptFor sl, []⟩ tT)
    with ⟨⟨tt, err⟩, calls⟩
  rw [h1] at herr hpost
  simp only at herr
  subst herr
  refine ⟨?_, ?_, ?_⟩ <;>
    simp [translateText, translateTry, h, h1]
  exact fun c hc => hpost c hc

/-- C3 witness: `C3_sub_failure_short_circuits` where the transliteration
transport fails, so the sub-call's generic message is propagated and only
the GET appears in the trace. -/
theorem C3_sub_failure_short_circuits_witness :
    (translateText ⟨"hi", "fr", "en", some "Grantha"⟩ (.throw ⟨true, "network error"⟩)
        (.respond 200 "OK" ⟨some "x"⟩)).1 = ⟨some "", some translitCatchMsg⟩ :=
  (C3_sub_failure_short_circuits "hi" "fr" "en" (.throw ⟨true, "network error"⟩)
    (.respond 200 "OK" ⟨some "x"⟩) translitCatchMsg (by decide) (by decide)).1

/-- C9: when the translation POST answers with a 2xx response whose JSON
body lacks the `translatedText` field, `translateText` returns a result
with no error whose `translatedText` is absent (`none`, modelling JS
`undefined`) — the missing field is not converted into a Failure.  When
the source script is Grantha, the transliteration pre-step is assumed to
succeed so that the POST is reached. -/
theorem C9_missing_field_no_error (q : TranslationParams) (tT : FetchOutcome String)
    (status : Nat) (statusText : String) (h : ¬ jsTrim q.text = "")
    (hok : statusOk status = true)
    (hsub : q.sourceScript = some "Grantha" →
      (transliterateText ⟨q.text, "Grantha", intermediateScriptFor q.sourceLanguage, []⟩
          tT).1.error = none) :
    (translateText q tT (.respond status statusText ⟨none⟩)).1 = ⟨none, none⟩ := by
  by_cases hg : q.sourceScript = some "Grantha"
  · have h0 := hsub hg
    rcases h1 : (transliterateText
        ⟨q.text, "Grantha", intermediateScriptFor q.sourceLanguage, []⟩ tT) with ⟨⟨tt, err⟩, calls⟩
    rw [h1] at h0
    simp only at h0
    subst h0
    simp [translateText, translateTry, translatePostStep, h, hg, h1, hok]
  · simp [translateText, translateTry, translatePostStep, h, hg, hok]

/-- C9 witness: `C9_missing_field_no_error` at a concrete non-Grantha call
whose 2xx response body has no `translatedText` field. -/
theorem C9_missing_field_no_error_witness :
    (translateText ⟨"hello", "en", "ta", none⟩ (.throw ⟨true, "unused"⟩)
        (.respond 200 "OK" ⟨none⟩)).1 = ⟨none, none⟩ :=
  C9_missing_field_no_error ⟨"hello", "en", "ta", none⟩ (.throw ⟨true, "unused"⟩) 200 "OK"
    (by decide) (by decide) (by simp)

/-- Whenever `transliterateText` reports an error, its transliterated text
is the empty string. -/
theorem translit_error_empty_text (p : TransliterationParams) (t : FetchOutcome String) :
    (transliterateText p t).1.error.isSome = true →
      (transliterateText p t).1.transliteratedText = "" := by
  unfold transliterateText transliterateTry
  by_cases hp : jsTrim p.text = "" <;>
    rcases t with e | ⟨st, sx, b⟩ <;>
      simp [hp]
  all_goals
    by_cases hs : statusOk st = true <;> simp [hs]

/-- Whenever `translateText` reports an error, its translated text is the
empty string. -/
theorem translate_error_empty_text (q : TranslationParams) (tT : FetchOutcome String)
    (trT : FetchOutcome TranslateBody) :
    (translateText q tT trT).1.error.isSome = true →
      (translateText q tT trT).1.translatedText = some "" := by
  by_cases hq : jsTrim q.text = ""
  · simp [translateText, hq]
  by_cases hg : q.sourceScript = some "Grantha"
  · rcases h1 : (transliterateText
        ⟨q.text, "Grantha", intermediateScriptFor q.sourceLanguage, []⟩ tT) with ⟨⟨tt, err⟩, calls⟩
    rcases err with - | m
    · rcases trT with e | ⟨st, sx, b⟩
      · simp [translateText, translateTry, translatePostStep, hq, hg, h1]
      · by_cases hs : statusOk st = true <;>
          simp [translateText, translateTry, translatePostStep, hq, hg, h1, hs]
    · simp [translateText, translateTry, hq, hg, h1]
  · rcases trT with e | ⟨st, sx, b⟩
    · simp [translateText, translateTry, translatePostStep, hq, hg]
    · by_cases hs : statusOk st = true <;>
        simp [translateText, translateTry, translatePostStep, hq, hg, hs]

/-- Whenever `extractTextFromImage` reports an error, its text is the
empty string. -/
theorem extract_error_empty_text (file : Option Unit) (te : FetchOutcome ExtractBody) :
    (extractTextFromImage file te).1.error.isSome = true →
      (extractTextFromImage file te).1.text = "" := by
  unfold extractTextFromImage extractTry
  rcases file with - | -
  · simp
  · rcases te with e | ⟨st, sx, b⟩
    · simp
    · by_cases hs : statusOk st = true <;> simp [hs]

/-- C10: for every input and every transport behaviour, each of
`transliterateText`, `translateText` and `extractTextFromImage` that
carries an error message also carries the empty string as its text value
(`translatedText` is the present-but-empty JS string `""`, i.e.
`some ""`). -/
theorem C10_error_implies_empty_value (p : TransliterationParams) (q : TranslationParams)
    (file : Option Unit) (t tT : FetchOutcome String) (trT : FetchOutcome TranslateBody)
    (te : FetchOutcome ExtractBody) :
    ((transliterateText p t).1.error.isSome = true →
        (transliterateText p t).1.transliteratedText = "")
      ∧ ((translateText q tT trT).1.error.isSome = true →
        (translateText q tT trT).1.translatedText = some "")
      ∧ ((extractTextFromImage file te).1.error.isSome = true →
        (extractTextFromImage file te).1.text = "") :=
  ⟨translit_error_empty_text p t, translate_error_empty_text q tT trT,
   extract_error_empty_text file te⟩

/-- C10 witness: `C10_error_implies_empty_value` at concrete erroring
calls (a 500 transliteration response, a thrown translation transport
error, a missing image file). -/
theorem C10_error_implies_empty_value_witness :
    (transliterateText ⟨"hi", "HK", "Tamil", []⟩ (.respond 500 "ISE" "junk")).1.transliteratedText
        = ""
      ∧ (translateText ⟨"hi", "en", "ta", none⟩ (.throw ⟨true, "x"⟩)
          (.throw ⟨true, "network"⟩)).1.translatedText = some ""
      ∧ (extractTextFromImage none (.respond 200 "OK" ⟨some "t"⟩)).1.text = "" :=
  ⟨(C10_error_implies_empty_value ⟨"hi", "HK", "Tamil", []⟩ ⟨"hi", "en", "ta", none⟩ none
      (.respond 500 "ISE" "junk") (.throw ⟨true, "x"⟩) (.throw ⟨true, "network"⟩)
      (.respond 200 "OK" ⟨some "t"⟩)).1 (by decide),
   (C10_error_implies_empty_value ⟨"hi", "HK", "Tamil", []⟩ ⟨"hi", "en", "ta", none⟩ none
      (.respond 500 "ISE" "junk") (.throw ⟨true, "x"⟩) (.throw ⟨true, "network"⟩)
      (.respond 200 "OK" ⟨some "t"⟩)).2.1 (by decide),
   (C10_error_implies_empty_value ⟨"hi", "HK", "Tamil", []⟩ ⟨"hi", "en", "ta", none⟩ none
      (.respond 500 "ISE" "junk") (.throw ⟨true, "x"⟩) (.throw ⟨true, "network"⟩)
      (.respond 200 "OK" ⟨some "t"⟩)).2.2 (by decide)⟩

/-- C5 counterexample: a 2xx OCR response whose JSON body lacks the text
field yields `{text: "", error: none}` — a Success with the empty string,
not the claimed `Failure("Failed to extract text. Please try another
image.")`; and a transport failure whose thrown value is an `Error`
instance (as `fetch` rejections are) yields a Failure carrying that
error's own message, not the claimed generic one. -/
theorem C5_counterexample :
    (extractTextFromImage (some ()) (.respond 200 "OK" ⟨none⟩)).1 = ⟨"", none⟩
      ∧ (extractTextFromImage (some ()) (.throw ⟨true, "Failed to fetch"⟩)).1
          = ⟨"", some "Failed to fetch"⟩ := by
  decide

/-- C5 amended: for `extractTextFromImage` with a file present, a
transport failure yields a Failure whose message is the thrown error's own
message when the thrown value is an `Error` instance and `Failed to
extract text. Please try another image.` only otherwise; a 2xx response
lacking the text field yields Success of the empty string (no error); and
when the field is present the operation returns its value as Success. -/
theorem C5_amended_extract_normalization (e : JsError) (status : Nat)
    (statusText v : String) (hok : statusOk status = true) :
    (extractTextFromImage (some ()) (.throw e)).1
        = ⟨"", some (if e.isError then e.message else extractFallbackMsg)⟩
      ∧ (extractTextFromImage (some ()) (.respond status statusText ⟨none⟩)).1 = ⟨"", none⟩
      ∧ (extractTextFromImage (some ()) (.respond status statusText ⟨some v⟩)).1
          = ⟨v, none⟩ := by
  refine ⟨rfl, ?_, ?_⟩ <;> simp [extractTextFromImage, extractTry, hok]

/-- C5 amended witness: `C5_amended_extract_normalization` at a concrete
non-Error throw and a concrete 2xx response. -/
theorem C5_amended_extract_normalization_witness :
    (extractTextFromImage (some ()) (.throw ⟨false, "whatever"⟩)).1
        = ⟨"", some (if (false : Bool) then "whatever" else extractFallbackMsg)⟩
      ∧ (extractTextFromImage (some ()) (.respond 200 "OK" ⟨none⟩)).1 = ⟨"", none⟩
      ∧ (extractTextFromImage (some ()) (.respond 200 "OK" ⟨some "𑌗𑍍𑌰"⟩)).1 = ⟨"𑌗𑍍𑌰", none⟩ :=
  C5_amended_extract_normalization ⟨false, "whatever"⟩ 200 "OK" "𑌗𑍍𑌰" (by decide)

/-- C8: calling `downloadTextAsFile` with the empty string only logs to
the console: no blob is created, no object URL is made and no download is
triggered, for every filename. -/
theorem C8_download_empty_noop (filename : String) :
    downloadTextAsFile "" filename = [.consoleError "No text to download"]
      ∧ (downloadTextAsFile "" filename).filter (fun e => e.isFileEffect) = [] := by
  exact ⟨rfl, rfl⟩
